import Mathlib

/-!
# Verification of the `oauth2` client core (`src/lib.rs`)

A shallow embedding of the OAuth2 client library in `src/lib.rs`.  Pure
computations (URL construction, form-urlencoding, base64, serde-style
deserialization of token/error responses, request assembly and response
classification) are translated into executable Lean definitions.  The two
external collaborators the crate delegates to are modelled faithfully at
their documented interfaces:

* `url::form_urlencoded` (the WHATWG `application/x-www-form-urlencoded`
  byte serializer: ASCII alphanumerics and `*-._` kept, space becomes `+`,
  every other byte percent-encoded as uppercase `%XX` over UTF-8);
* `serde_json` (JSON text parsing into a value tree, and the behaviour of
  derived `Deserialize` implementations, including externally-tagged enum
  representation, `#[serde(rename_all)]`, `#[serde(default)]`,
  `Option` fields defaulting to `None` when missing, and the crate's
  custom `deserialize_with` helpers).

Effects are made explicit: randomness is passed in as the byte list the
RNG produced, the HTTP transport is passed in as the `(status, body)` it
returned, and a Rust `panic!`/failed `assert!`/`Result::unwrap` on `Err`
is a distinguished `Outcome.panicked` value, disjoint from the
recoverable `Result::Err` channel.
-/

/-- Result of running a piece of Rust code that may return `Ok`, return a
recoverable `Err`, or panic (assertion failure / `unwrap` on `Err`).
A panic aborts the thread and is *not* a catchable `RequestTokenError`. -/
inductive Outcome (ε : Type) (α : Type) where
  | ok (a : α)
  | err (e : ε)
  | panicked (msg : String)
deriving DecidableEq, Repr

deriving instance DecidableEq for Except

/-- First value stored under key `k` in an ordered association list of
string pairs (query strings and form bodies keep their order). -/
def findKey (l : List (String × String)) (k : String) : Option String :=
  match l with
  | [] => none
  | (k0, v) :: rest => if k0 = k then some v else findKey rest k

/-- `pr` occurs at the start of `l`. -/
def prefOf : List Char → List Char → Bool
  | [], _ => true
  | _ :: _, [] => false
  | a :: as, b :: bs => a = b && prefOf as bs

/-- `needle` occurs contiguously somewhere in `hay`. -/
def subOf (needle : List Char) : List Char → Bool
  | [] => prefOf needle []
  | b :: bs => prefOf needle (b :: bs) || subOf needle bs

/-- `needle` is a contiguous substring of `hay` (what "the output contains
the wrapped value" means for strings). -/
def strContainsSub (hay needle : String) : Bool :=
  subOf needle.data hay.data

/-- UTF-8 encoding of one scalar value, as the list of its byte values. -/
def utf8Bytes (c : Char) : List Nat :=
  let n := c.toNat
  if n < 0x80 then [n]
  else if n < 0x800 then [0xC0 + n / 0x40, 0x80 + n % 0x40]
  else if n < 0x10000 then
    [0xE0 + n / 0x1000, 0x80 + (n / 0x40) % 0x40, 0x80 + n % 0x40]
  else
    [0xF0 + n / 0x40000, 0x80 + (n / 0x1000) % 0x40,
      0x80 + (n / 0x40) % 0x40, 0x80 + n % 0x40]

/-- The UTF-8 bytes of a string. -/
def strBytes (s : String) : List Nat :=
  (s.data.map utf8Bytes).flatten

/-- Uppercase hexadecimal digit, as used by the percent-encoder. -/
def hexDigit (n : Nat) : Char :=
  if n < 10 then Char.ofNat (48 + n) else Char.ofNat (65 + n - 10)

/-- One byte under the WHATWG `application/x-www-form-urlencoded`
serializer (the behaviour of `url::form_urlencoded::byte_serialize` and
of `Serializer::append_pair`): ASCII alphanumerics and `*`, `-`, `.`, `_`
pass through, space becomes `+`, everything else is `%XX`. -/
def encByte (b : Nat) : List Char :=
  if (0x30 ≤ b ∧ b ≤ 0x39) ∨ (0x41 ≤ b ∧ b ≤ 0x5A) ∨ (0x61 ≤ b ∧ b ≤ 0x7A)
      ∨ b = 0x2A ∨ b = 0x2D ∨ b = 0x2E ∨ b = 0x5F then
    [Char.ofNat b]
  else if b = 0x20 then ['+']
  else ['%', hexDigit (b / 16), hexDigit (b % 16)]

/-- Form-urlencode a whole string (byte-wise over its UTF-8 encoding). -/
def formUrlEncode (s : String) : String :=
  String.mk ((strBytes s).map encByte).flatten

/-- `fn url_encode(s: &str) -> String` (src/lib.rs:950-952): collect
`url::form_urlencoded::byte_serialize` over the string's bytes. -/
def url_encode (s : String) : String :=
  formUrlEncode s

/-- `url::form_urlencoded::Serializer`: encode each pair as `k=v` and join
the pairs with `&` (`finish()` of a serializer fed by `append_pair`). -/
def serializeForm (pairs : List (String × String)) : String :=
  String.intercalate "&" (pairs.map fun kv => formUrlEncode kv.1 ++ "=" ++ formUrlEncode kv.2)

/-- Model of `url::Url` at the interface this crate uses: the
serialization of everything before the query, plus the ordered, decoded
query pairs.  `query_pairs_mut().append_pair(k, v)` appends a pair;
serializing the URL form-urlencodes the pairs. -/
structure Url where
  base : String
  query : List (String × String)
deriving DecidableEq, Repr

/-- Serialize a `Url` (what `Url::as_str`/`to_string` yields): the base,
then `?` and the form-urlencoded query pairs if any were appended. -/
def Url.toString (u : Url) : String :=
  if u.query.isEmpty then u.base else u.base ++ "?" ++ serializeForm u.query

/-- The seven `new_secret_type!` instantiations in src/lib.rs. -/
inductive SecretTypeName where
  | clientSecret
  | csrfToken
  | pkceCodeVerifierS256
  | authorizationCode
  | refreshToken
  | accessToken
  | resourceOwnerPassword
deriving DecidableEq, Repr

/-- `stringify!($name)` for each secret wrapper type. -/
def SecretTypeName.str : SecretTypeName → String
  | .clientSecret => "ClientSecret"
  | .csrfToken => "CsrfToken"
  | .pkceCodeVerifierS256 => "PkceCodeVerifierS256"
  | .authorizationCode => "AuthorizationCode"
  | .refreshToken => "RefreshToken"
  | .accessToken => "AccessToken"
  | .resourceOwnerPassword => "ResourceOwnerPassword"

/-- The `fmt::Debug` impl generated by `new_secret_type!`
(src/lib.rs:338-343): `write!(f, concat!(stringify!($name), "([redacted])"))`.
The wrapped value (second argument) is not consulted. -/
def secretDebugFmt (t : SecretTypeName) (_value : String) : String :=
  t.str ++ "([redacted])"

/-- One character of the `base64::URL_SAFE_NO_PAD` alphabet
(`A-Z`, `a-z`, `0-9`, `-`, `_`), for a sextet value. -/
def b64Char (n : Nat) : Char :=
  if n < 26 then Char.ofNat (65 + n)
  else if n < 52 then Char.ofNat (97 + (n - 26))
  else if n < 62 then Char.ofNat (48 + (n - 52))
  else if n = 62 then '-'
  else '_'

/-- Unpadded base64 of a byte list, three input bytes at a time
(`base64::encode_config(_, base64::URL_SAFE_NO_PAD)`). -/
def b64EncodeList : List Nat → List Char
  | [] => []
  | [a] => [b64Char (a / 4), b64Char (a % 4 * 16)]
  | [a, b] => [b64Char (a / 4), b64Char (a % 4 * 16 + b / 16), b64Char (b % 16 * 4)]
  | a :: b :: c :: rest =>
    b64Char (a / 4) :: b64Char (a % 4 * 16 + b / 16)
      :: b64Char (b % 16 * 4 + c / 64) :: b64Char (c % 64) :: b64EncodeList rest

/-- URL-safe unpadded base64 of a byte list, as a string. -/
def base64UrlNoPad (bytes : List Nat) : String :=
  String.mk (b64EncodeList bytes)

/-- Length of the unpadded base64 encoding of `n` bytes. -/
def b64Len : Nat → Nat
  | 0 => 0
  | 1 => 2
  | 2 => 3
  | n + 3 => 4 + b64Len n

/-- `pub enum AuthType` (src/lib.rs:234-240). -/
inductive AuthType where
  | RequestBody
  | BasicAuth
deriving DecidableEq, Repr

/-- `pub struct Client` (src/lib.rs:557-567).  Secret wrappers are carried
as their underlying strings; the embedded `reqwest` handle has no
observable state at this interface and is omitted.  `redirect_url` is
carried as the URL's serialization, which is what `as_str()` yields at
both places it is consumed (authorize query and token body). -/
structure Client where
  client_id : String
  client_secret : Option String
  auth_url : Url
  auth_type : AuthType
  token_url : Option String
  scopes : List String
  redirect_url : Option String
deriving DecidableEq, Repr

/-- `Client::new` (src/lib.rs:590-610): defaults `auth_type` to
`BasicAuth`, `scopes` to empty, `redirect_url` to `None`.  (The `Result`
in the source only reflects construction of the `reqwest` transport
handle, which is external and modelled as infallible.) -/
def Client.new (client_id : String) (client_secret : Option String)
    (auth_url : Url) (token_url : Option String) : Client :=
  { client_id := client_id
    client_secret := client_secret
    auth_url := auth_url
    auth_type := AuthType.BasicAuth
    token_url := token_url
    scopes := []
    redirect_url := none }

/-- `Client::add_scope` (src/lib.rs:615-619): push one scope. -/
def Client.add_scope (c : Client) (scope : String) : Client :=
  { c with scopes := c.scopes ++ [scope] }

/-- `Client::set_auth_type` (src/lib.rs:628-632). -/
def Client.set_auth_type (c : Client) (auth_type : AuthType) : Client :=
  { c with auth_type := auth_type }

/-- `Client::set_redirect_url` (src/lib.rs:637-641). -/
def Client.set_redirect_url (c : Client) (redirect_url : String) : Client :=
  { c with redirect_url := some redirect_url }

/-- `Client::authorize_url_impl` (src/lib.rs:698-728): clone the auth URL
and append, in order, `response_type`, `client_id`, `redirect_uri` (if
configured), `scope` (the scopes joined with one space, if that joined
string is non-empty), and `state` (if supplied). -/
def Client.authorize_url_impl (c : Client) (response_type : String)
    (state_opt : Option String) : Url :=
  let scopes := String.intercalate " " c.scopes
  { base := c.auth_url.base
    query := c.auth_url.query
      ++ [("response_type", response_type), ("client_id", c.client_id)]
      ++ (match c.redirect_url with
          | some r => [("redirect_uri", r)]
          | none => [])
      ++ (if scopes.isEmpty then [] else [("scope", scopes)])
      ++ (match state_opt with
          | some st => [("state", st)]
          | none => []) }

/-- `Client::authorize_url` (src/lib.rs:663-669).  The `FnOnce() ->
CsrfToken` argument is an effectful generator; it is modelled as a state
transformer `σ → String × σ` plus the seed it is applied to, so that
"called exactly once" is visible as exactly one step of the transformer. -/
def Client.authorize_url {σ : Type} (c : Client) (state_fn : σ → String × σ)
    (seed : σ) : (Url × String) × σ :=
  let s := state_fn seed
  ((c.authorize_url_impl "code" (some s.1), s.1), s.2)

/-- `Client::authorize_url_implicit` (src/lib.rs:690-696). -/
def Client.authorize_url_implicit {σ : Type} (c : Client) (state_fn : σ → String × σ)
    (seed : σ) : (Url × String) × σ :=
  let s := state_fn seed
  ((c.authorize_url_impl "token" (some s.1), s.1), s.2)

/-- `insecure::authorize_url` (src/lib.rs:1185-1187): no `state`. -/
def insecureAuthorizeUrl (c : Client) : Url :=
  c.authorize_url_impl "code" none

/-- `insecure::authorize_url_implicit` (src/lib.rs:1199-1201). -/
def insecureAuthorizeUrlImplicit (c : Client) : Url :=
  c.authorize_url_impl "token" none

/-- `pub struct RequestBuilder` (src/lib.rs:828-838). -/
structure RequestBuilder where
  token_url : Option String
  auth_type : AuthType
  client_id : String
  client_secret : Option String
  redirect_url : Option String
  params : List (String × String)
deriving DecidableEq, Repr

/-- `Client::request_token` (src/lib.rs:814-824). -/
def Client.request_token (c : Client) : RequestBuilder :=
  { token_url := c.token_url
    auth_type := c.auth_type
    client_id := c.client_id
    client_secret := c.client_secret
    redirect_url := c.redirect_url
    params := [] }

/-- `RequestBuilder::param` (src/lib.rs:842-845): append one pair. -/
def RequestBuilder.param (b : RequestBuilder) (key value : String) : RequestBuilder :=
  { b with params := b.params ++ [(key, value)] }

/-- `Client::exchange_code` (src/lib.rs:738-742). -/
def Client.exchange_code (c : Client) (code : String) : RequestBuilder :=
  (c.request_token.param "grant_type" "authorization_code").param "code" code

/-- `Client::exchange_password` (src/lib.rs:749-774): `grant_type`,
`username`, `password`, then — if the scope list is non-empty — the
space-joined scopes under the body key `"scope"`. -/
def Client.exchange_password (c : Client) (username password : String) : RequestBuilder :=
  let b := ((c.request_token.param "grant_type" "password").param
      "username" username).param "password" password
  if c.scopes.isEmpty then b
  else b.param "scope" (String.intercalate " " c.scopes)

/-- `Client::exchange_client_credentials` (src/lib.rs:781-800):
`grant_type`, then — if the scope list is non-empty — the space-joined
scopes under the body key `"scopes"` (sic: not `"scope"`). -/
def Client.exchange_client_credentials (c : Client) : RequestBuilder :=
  let b := c.request_token.param "grant_type" "client_credentials"
  if c.scopes.isEmpty then b
  else b.param "scopes" (String.intercalate " " c.scopes)

/-- `Client::exchange_refresh_token` (src/lib.rs:807-811). -/
def Client.exchange_refresh_token (c : Client) (refresh_token : String) : RequestBuilder :=
  (c.request_token.param "grant_type" "refresh_token").param
    "refresh_token" refresh_token

/-- The four grant-specific token-request entry points, as one type, so
properties can quantify over "any token request built by an
`exchange_*` method". -/
inductive Grant where
  | code (c : String)
  | password (username password : String)
  | clientCredentials
  | refreshToken (t : String)

/-- Dispatch a `Grant` to the corresponding `exchange_*` entry point. -/
def Client.mkGrantRequest (c : Client) : Grant → RequestBuilder
  | .code a => c.exchange_code a
  | .password u p => c.exchange_password u p
  | .clientCredentials => c.exchange_client_credentials
  | .refreshToken t => c.exchange_refresh_token t

/-- `PkceCodeVerifierS256::new_random_len` (src/lib.rs:491-500).  The RNG
is externalized: `random_bytes` is the byte list the thread RNG drew, so
`num_bytes` of the source is `random_bytes.length`.  The two `assert!`
macros become `Outcome.panicked`; `ε := Empty` records that this function
has no recoverable error channel at all. -/
def PkceCodeVerifierS256.new_random_len (random_bytes : List Nat) : Outcome Empty String :=
  if 32 ≤ random_bytes.length ∧ random_bytes.length ≤ 96 then
    let code := base64UrlNoPad random_bytes
    if 43 ≤ code.length ∧ code.length ≤ 128 then
      Outcome.ok code
    else
      Outcome.panicked "assertion failed: code.len() >= 43 && code.len() <= 128"
  else
    Outcome.panicked "assertion failed: num_bytes >= 32 && num_bytes <= 96"

/-- JSON value tree (the `serde_json::Value` shapes reachable by the
modelled parser; numbers are integers, which covers every numeric field
this crate deserializes). -/
inductive Json where
  | null
  | bool (b : Bool)
  | num (n : Int)
  | str (s : String)
  | arr (xs : List Json)
  | obj (fields : List (String × Json))

/-- Whitespace skipping for the JSON text reader. -/
def skipWs : List Char → List Char
  | c :: rest =>
    if c = ' ' ∨ c = '\t' ∨ c = '\n' ∨ c = '\r' then skipWs rest else c :: rest
  | [] => []

/-- One JSON string escape (the subset `\" \\ \/ \n \t \r`). -/
def escMap (c : Char) : Option Char :=
  if c = '"' then some '"'
  else if c = '\\' then some '\\'
  else if c = '/' then some '/'
  else if c = 'n' then some '\n'
  else if c = 't' then some '\t'
  else if c = 'r' then some '\r'
  else none

/-- Body of a JSON string after its opening quote: the decoded characters
and the rest of the input after the closing quote. -/
def strLitBody : List Char → Option (List Char × List Char)
  | [] => none
  | '"' :: rest => some ([], rest)
  | '\\' :: rest =>
    match rest with
    | [] => none
    | e :: rest2 =>
      match escMap e, strLitBody rest2 with
      | some c, some (s, r) => some (c :: s, r)
      | _, _ => none
  | c :: rest =>
    match strLitBody rest with
    | some (s, r) => some (c :: s, r)
    | none => none

/-- Leading decimal digits of the input, and the rest. -/
def takeDigits : List Char → List Char × List Char
  | [] => ([], [])
  | c :: rest =>
    if c.isDigit then
      let d := takeDigits rest
      (c :: d.1, d.2)
    else ([], c :: rest)

/-- Digit characters to the natural number they denote. -/
def digitsToNat (ds : List Char) : Nat :=
  ds.foldl (fun acc c => acc * 10 + (c.toNat - 48)) 0

/-- Parser modes: one value, array items up to `]`, object members up
to `}`. -/
inductive PMode where
  | val
  | items
  | fields

/-- Parser results, one constructor per mode. -/
inductive PRes where
  | val (j : Json) (rest : List Char)
  | items (xs : List Json) (rest : List Char)
  | fields (fs : List (String × Json)) (rest : List Char)

/-- JSON text reader (model of the `serde_json` lexer/parser, an external
collaborator); fuelled recursion, fuel bounds the nesting depth.  One
function over a mode tag so the recursion is plain structural recursion
on the fuel. -/
def pRun : Nat → PMode → List Char → Option PRes
  | 0, _, _ => none
  | fuel + 1, PMode.val, cs =>
    (match skipWs cs with
     | '"' :: rest =>
       (match strLitBody rest with
        | some (s, r) => some (PRes.val (Json.str (String.mk s)) r)
        | none => none)
     | 'n' :: 'u' :: 'l' :: 'l' :: rest => some (PRes.val Json.null rest)
     | 't' :: 'r' :: 'u' :: 'e' :: rest => some (PRes.val (Json.bool true) rest)
     | 'f' :: 'a' :: 'l' :: 's' :: 'e' :: rest => some (PRes.val (Json.bool false) rest)
     | '[' :: rest =>
       (match skipWs rest with
        | ']' :: r2 => some (PRes.val (Json.arr []) r2)
        | r1 =>
          match pRun fuel PMode.items r1 with
          | some (PRes.items xs r) => some (PRes.val (Json.arr xs) r)
          | _ => none)
     | '{' :: rest =>
       (match skipWs rest with
        | '}' :: r2 => some (PRes.val (Json.obj []) r2)
        | r1 =>
          match pRun fuel PMode.fields r1 with
          | some (PRes.fields fs r) => some (PRes.val (Json.obj fs) r)
          | _ => none)
     | '-' :: rest =>
       (match takeDigits rest with
        | ([], _) => none
        | (ds, r) => some (PRes.val (Json.num (-(digitsToNat ds : Int))) r))
     | c :: rest =>
       if c.isDigit then
         match takeDigits (c :: rest) with
         | (ds, r) => some (PRes.val (Json.num (digitsToNat ds : Int)) r)
       else none
     | [] => none)
  | fuel + 1, PMode.items, cs =>
    (match pRun fuel PMode.val cs with
     | some (PRes.val v r) =>
       (match skipWs r with
        | ',' :: r2 =>
          (match pRun fuel PMode.items r2 with
           | some (PRes.items xs r3) => some (PRes.items (v :: xs) r3)
           | _ => none)
        | ']' :: r2 => some (PRes.items [v] r2)
        | _ => none)
     | _ => none)
  | fuel + 1, PMode.fields, cs =>
    (match skipWs cs with
     | '"' :: rest =>
       (match strLitBody rest with
        | none => none
        | some (k, r) =>
          match skipWs r with
          | ':' :: r2 =>
            (match pRun fuel PMode.val r2 with
             | some (PRes.val v r3) =>
               (match skipWs r3 with
                | ',' :: r4 =>
                  (match pRun fuel PMode.fields r4 with
                   | some (PRes.fields fs r5) => some (PRes.fields ((String.mk k, v) :: fs) r5)
                   | _ => none)
                | '}' :: r4 => some (PRes.fields [(String.mk k, v)] r4)
                | _ => none)
             | _ => none)
          | _ => none)
     | _ => none)

/-- JSON text reader, one value: run the fuelled reader in value mode. -/
def pVal (fuel : Nat) (cs : List Char) : Option (Json × List Char) :=
  match pRun fuel PMode.val cs with
  | some (PRes.val j r) => some (j, r)
  | _ => none

/-- `serde_json` text-to-value parsing of a whole response body. -/
def jsonParse (s : String) : Except String Json :=
  match pVal (s.length + 1) s.data with
  | some (v, rest) =>
    if (skipWs rest).isEmpty then Except.ok v
    else Except.error "trailing characters"
  | none => Except.error "expected value"

/-- First JSON value stored under key `k` in an object's member list. -/
def jLookup (fields : List (String × Json)) (k : String) : Option Json :=
  match fields with
  | [] => none
  | (k0, v) :: rest => if k0 = k then some v else jLookup rest k

/-- `pub enum TokenType` (src/lib.rs:955-964), wire names per
`#[serde(rename_all = "lowercase")]`. -/
inductive TokenType where
  | Bearer
  | Mac
deriving DecidableEq, Repr

/-- Derived `Deserialize` for `TokenType`: a JSON string equal to a
variant's lowercase name; anything else is an error. -/
def TokenType.fromJson : Json → Except String TokenType
  | Json.str s =>
    if s = "bearer" then Except.ok TokenType.Bearer
    else if s = "mac" then Except.ok TokenType.Mac
    else Except.error ("unknown variant `" ++ s ++ "`")
  | _ => Except.error "invalid type: expected string"

/-- Lowercase one character (`str::to_lowercase`, at the ASCII range the
wire token types live in). -/
def charToLower (c : Char) : Char :=
  if 65 ≤ c.toNat ∧ c.toNat ≤ 90 then Char.ofNat (c.toNat + 32) else c

/-- Lowercase a string character-wise. -/
def strToLower (s : String) : String :=
  String.mk (s.data.map charToLower)

/-- `helpers::deserialize_untagged_enum_case_insensitive`
(src/lib.rs:1249-1262): deserialize a `String`, lowercase it, then run the
target type's deserializer on that lowercased string. -/
def deserializeTokenTypeCaseInsensitive : Json → Except String TokenType
  | Json.str s => TokenType.fromJson (Json.str (strToLower s))
  | _ => Except.error "invalid type: expected string"

/-- `pub enum ErrorField` (src/lib.rs:1062-1085). -/
inductive ErrorField where
  | InvalidRequest
  | InvalidClient
  | InvalidGrant
  | UnauthorizedClient
  | UnsupportedGrantType
  | InvalidScope
  | Other (s : String)
deriving DecidableEq, Repr

/-- Derived `Deserialize` for `ErrorField` under
`#[serde(rename_all = "snake_case")]` with serde's externally-tagged enum
representation.  A JSON *string* selects a variant by exact (case-
sensitive) name and can only produce a *unit* variant: the six RFC codes
succeed, the name `"other"` selects the newtype variant and fails with a
type error, and any other string is an unknown-variant error.  The
newtype variant `Other` is reachable only through the map form
`{"other": <string>}`; a map naming a unit variant requires `null`. -/
def ErrorField.fromJson : Json → Except String ErrorField
  | Json.str s =>
    if s = "invalid_request" then Except.ok ErrorField.InvalidRequest
    else if s = "invalid_client" then Except.ok ErrorField.InvalidClient
    else if s = "invalid_grant" then Except.ok ErrorField.InvalidGrant
    else if s = "unauthorized_client" then Except.ok ErrorField.UnauthorizedClient
    else if s = "unsupported_grant_type" then Except.ok ErrorField.UnsupportedGrantType
    else if s = "invalid_scope" then Except.ok ErrorField.InvalidScope
    else if s = "other" then
      Except.error "invalid type: unit variant, expected newtype variant"
    else Except.error ("unknown variant `" ++ s ++ "`")
  | Json.obj [(k, v)] =>
    if k = "other" then
      match v with
      | Json.str s => Except.ok (ErrorField.Other s)
      | _ => Except.error "invalid type: expected a string"
    else if k = "invalid_request" ∨ k = "invalid_client" ∨ k = "invalid_grant"
        ∨ k = "unauthorized_client" ∨ k = "unsupported_grant_type"
        ∨ k = "invalid_scope" then
      match v with
      | Json.null =>
        if k = "invalid_request" then Except.ok ErrorField.InvalidRequest
        else if k = "invalid_client" then Except.ok ErrorField.InvalidClient
        else if k = "invalid_grant" then Except.ok ErrorField.InvalidGrant
        else if k = "unauthorized_client" then Except.ok ErrorField.UnauthorizedClient
        else if k = "unsupported_grant_type" then Except.ok ErrorField.UnsupportedGrantType
        else Except.ok ErrorField.InvalidScope
      | _ => Except.error "invalid type: expected unit"
    else Except.error ("unknown variant `" ++ k ++ "`")
  | _ => Except.error "invalid type: expected string or map"

/-- The wire names of the six enumerated RFC 6749 §5.2 error codes. -/
def rfcErrorCodes : List String :=
  ["invalid_request", "invalid_client", "invalid_grant",
    "unauthorized_client", "unsupported_grant_type", "invalid_scope"]

/-- `pub struct ErrorResponse` (src/lib.rs:1107-1121), secret-free. -/
structure ErrorResponse where
  error : ErrorField
  error_description : Option String
  error_uri : Option String
deriving DecidableEq, Repr

/-- An optional `String`-typed field under serde: missing or `null`
deserializes to `none` (via `#[serde(default)]` / serde's `Option`
handling), a string to `some`, anything else is a type error. -/
def optStringField (fields : List (String × Json)) (k : String) :
    Except String (Option String) :=
  match jLookup fields k with
  | none => Except.ok none
  | some Json.null => Except.ok none
  | some (Json.str s) => Except.ok (some s)
  | some _ => Except.error ("invalid type for field `" ++ k ++ "`")

/-- An optional `u64`-typed field under serde (`expires_in`). -/
def optU64Field (fields : List (String × Json)) (k : String) :
    Except String (Option Nat) :=
  match jLookup fields k with
  | none => Except.ok none
  | some Json.null => Except.ok none
  | some (Json.num n) =>
    if 0 ≤ n ∧ n < (2 : Int) ^ 64 then Except.ok (some n.toNat)
    else Except.error ("invalid value for field `" ++ k ++ "`")
  | some _ => Except.error ("invalid type for field `" ++ k ++ "`")

/-- Derived `Deserialize` for `ErrorResponse` (src/lib.rs:1107-1121):
`error` is required, `error_description` and `error_uri` carry
`#[serde(default)]`. -/
def ErrorResponse.fromJson : Json → Except String ErrorResponse
  | Json.obj fields =>
    (match jLookup fields "error" with
     | none => Except.error "missing field `error`"
     | some ej =>
       match ErrorField.fromJson ej with
       | Except.error e => Except.error e
       | Except.ok ef =>
         match optStringField fields "error_description" with
         | Except.error e => Except.error e
         | Except.ok d =>
           match optStringField fields "error_uri" with
           | Except.error e => Except.error e
           | Except.ok u =>
             Except.ok { error := ef, error_description := d, error_uri := u })
  | _ => Except.error "invalid type: expected struct ErrorResponse"

/-- Character-level worker for `splitSpace`. -/
def splitSpaceChars : List Char → List (List Char)
  | [] => [[]]
  | c :: rest =>
    let r := splitSpaceChars rest
    if c = ' ' then [] :: r
    else
      match r with
      | h :: t => (c :: h) :: t
      | [] => [[c]]

/-- Rust `str::split(' ')`: the pieces between space characters, in
order, keeping empty pieces (so `""` splits to `[""]`). -/
def splitSpace (s : String) : List String :=
  (splitSpaceChars s.data).map String.mk

/-- `helpers::deserialize_space_delimited_vec` (src/lib.rs:1299-1316) at
the type it is used at (`Option<Vec<Scope>>`): `null` gives the default
`None`; a string is split at every space character, yielding `Some` of
the ordered pieces (so `""` gives `Some [""]`, and absence of the field
is handled by the caller via `#[serde(default)]`). -/
def deserializeSpaceDelimitedScopes : Json → Except String (Option (List String))
  | Json.null => Except.ok none
  | Json.str s => Except.ok (some (splitSpace s))
  | _ => Except.error "invalid type: expected string"

/-- `pub struct StandardTokenResponse` (src/lib.rs:1005-1020),
secret wrappers carried as strings, `expires_in` in seconds. -/
structure StandardTokenResponse where
  access_token : String
  token_type : TokenType
  expires_in : Option Nat
  refresh_token : Option String
  scopes : Option (List String)
deriving DecidableEq, Repr

/-- Derived `Deserialize` for `StandardTokenResponse`
(src/lib.rs:1005-1020): `access_token` and `token_type` are required
(missing is an error — serde only defaults `Option` fields without a
custom deserializer, and `token_type` has `deserialize_with` and no
`default`); `token_type` goes through the case-insensitive helper;
`expires_in` and `refresh_token` default to `None`; `scopes` reads the
wire field `scope` through the space-delimited helper with
`#[serde(default)]`. -/
def StandardTokenResponse.fromJson : Json → Except String StandardTokenResponse
  | Json.obj fields =>
    (match jLookup fields "access_token" with
     | none => Except.error "missing field `access_token`"
     | some (Json.str a) =>
       (match jLookup fields "token_type" with
        | none => Except.error "missing field `token_type`"
        | some tj =>
          match deserializeTokenTypeCaseInsensitive tj with
          | Except.error e => Except.error e
          | Except.ok tt =>
            match optU64Field fields "expires_in" with
            | Except.error e => Except.error e
            | Except.ok ei =>
              match optStringField fields "refresh_token" with
              | Except.error e => Except.error e
              | Except.ok rt =>
                match (match jLookup fields "scope" with
                       | none => Except.ok none
                       | some sj => deserializeSpaceDelimitedScopes sj) with
                | Except.error e => Except.error e
                | Except.ok sc =>
                  Except.ok { access_token := a, token_type := tt,
                              expires_in := ei, refresh_token := rt, scopes := sc })
     | some _ => Except.error "invalid type for field `access_token`")
  | _ => Except.error "invalid type: expected struct StandardTokenResponse"

/-- `serde_json::from_slice::<ErrorResponse>` on a response body. -/
def parseErrorResponse (body : String) : Except String ErrorResponse :=
  match jsonParse body with
  | Except.error e => Except.error e
  | Except.ok j => ErrorResponse.fromJson j

/-- `serde_json::from_slice::<StandardTokenResponse>` on a response body. -/
def parseTokenResponse (body : String) : Except String StandardTokenResponse :=
  match jsonParse body with
  | Except.error e => Except.error e
  | Except.ok j => StandardTokenResponse.fromJson j

/-- `pub enum RequestTokenError` (src/lib.rs:1144-1166).  The transport
error payload (`reqwest::Error`) and the serde error payload are carried
as their messages; `Parse` additionally carries the raw body bytes, here
the body string. -/
inductive RequestTokenError where
  | ServerResponse (e : ErrorResponse)
  | Client (msg : String)
  | Parse (msg : String) (body : String)
  | Other (msg : String)
deriving DecidableEq, Repr

/-- The panic message of `Result::unwrap` on the `Err` built at
src/lib.rs:854-863 when `token_url` is `None`.  (`.ok_or_else(..)` turns
the `None` into `Err(RequestTokenError::Other(..))` — and the very next
combinator is `.unwrap()`, which panics on that `Err`.) -/
def tokenUrlUnwrapPanic : String :=
  "called `Result::unwrap()` on an `Err` value: Other(\"token_url must not be `None`\")"

/-- The assembled HTTP POST of `RequestBuilder::execute`
(src/lib.rs:865-919), before it is handed to the transport. -/
structure HttpRequest where
  url : String
  accept : String
  basic_auth : Option (String × Option String)
  content_type : String
  body_pairs : List (String × String)
deriving DecidableEq, Repr

/-- The client-authentication step of `RequestBuilder::execute`
(src/lib.rs:882-903): under `RequestBody` the credentials open the form
body and no `Authorization` header is set; under `BasicAuth` the id and
secret are separately url-encoded (RFC 6749 §2.3.1) and become the HTTP
Basic username/password, and nothing is put in the body. -/
def RequestBuilder.authStep (b : RequestBuilder) :
    Option (String × Option String) × List (String × String) :=
  match b.auth_type with
  | AuthType.RequestBody =>
    (none,
      [("client_id", b.client_id)]
        ++ (match b.client_secret with
            | some s => [("client_secret", s)]
            | none => []))
  | AuthType.BasicAuth =>
    (some (url_encode b.client_id, b.client_secret.map url_encode), [])

/-- The `Authorization: Basic` credentials the request is sent with
(username and password before base64), if any. -/
def RequestBuilder.authHeader (b : RequestBuilder) : Option (String × Option String) :=
  b.authStep.1

/-- The ordered `application/x-www-form-urlencoded` body pairs of the
request (src/lib.rs:878-918): auth fields (RequestBody mode only), then
the accumulated grant/caller params, then `redirect_uri` if configured. -/
def RequestBuilder.bodyPairs (b : RequestBuilder) : List (String × String) :=
  b.authStep.2 ++ b.params
    ++ (match b.redirect_url with
        | some r => [("redirect_uri", r)]
        | none => [])

/-- The request-assembly half of `RequestBuilder::execute`
(src/lib.rs:848-919): panics when `token_url` is `None` (see
`tokenUrlUnwrapPanic`), otherwise builds the POST with an
`Accept: application/json` header, the selected client authentication,
and the serialized form body. -/
def RequestBuilder.buildHttpRequest (b : RequestBuilder) :
    Outcome RequestTokenError HttpRequest :=
  match b.token_url with
  | none => Outcome.panicked tokenUrlUnwrapPanic
  | some u =>
    Outcome.ok
      { url := u
        accept := "application/json"
        basic_auth := b.authHeader
        content_type := "application/x-www-form-urlencoded"
        body_pairs := b.bodyPairs }

/-- `StatusCode::is_success`: the 2xx range. -/
def statusIsSuccess (status : Nat) : Bool :=
  200 ≤ status && status < 300

/-- The response-classification half of `RequestBuilder::execute`
(src/lib.rs:925-947), for a transport result of `status` and `body`:
non-2xx with empty body is the generic "empty error response" `Other`;
non-2xx with a non-empty body is `ServerResponse` when the body parses as
an `ErrorResponse` and otherwise `Parse` carrying the raw body; 2xx with
empty body is the generic "empty response body" `Other`; 2xx with a
non-empty body is `Ok` when it parses as a token response and otherwise
`Parse` carrying the raw body. -/
def classifyResponse (status : Nat) (body : String) :
    Except RequestTokenError StandardTokenResponse :=
  if statusIsSuccess status = false then
    if body = "" then
      Except.error (RequestTokenError.Other "Server returned empty error response")
    else
      match parseErrorResponse body with
      | Except.ok e => Except.error (RequestTokenError.ServerResponse e)
      | Except.error m => Except.error (RequestTokenError.Parse m body)
  else
    if body = "" then
      Except.error (RequestTokenError.Other "Server returned empty response body")
    else
      match parseTokenResponse body with
      | Except.ok t => Except.ok t
      | Except.error m => Except.error (RequestTokenError.Parse m body)

/-- `RequestBuilder::execute` (src/lib.rs:848-947) end to end, with the
transport externalized: `status` and `body` are what the transport
collaborator returned for the assembled POST.  The `token_url = None`
unwrap-panic happens before the request is sent; afterwards the response
is classified by `classifyResponse`. -/
def RequestBuilder.execute (b : RequestBuilder) (status : Nat) (body : String) :
    Outcome RequestTokenError StandardTokenResponse :=
  match b.buildHttpRequest with
  | Outcome.panicked m => Outcome.panicked m
  | Outcome.err e => Outcome.err e
  | Outcome.ok _ =>
    match classifyResponse status body with
    | Except.ok t => Outcome.ok t
    | Except.error e => Outcome.err e

theorem findKey_append (l1 l2 : List (String × String)) (k : String) :
    findKey (l1 ++ l2) k
      = (match findKey l1 k with
         | some v => some v
         | none => findKey l2 k) := by
  induction l1 with
  | nil => simp [findKey]
  | cons kv rest ih =>
    obtain ⟨k0, v⟩ := kv
    by_cases h : k0 = k <;> simp [findKey, h, ih]

theorem mkGrantRequest_fields (c : Client) (g : Grant) :
    (c.mkGrantRequest g).token_url = c.token_url
    ∧ (c.mkGrantRequest g).auth_type = c.auth_type
    ∧ (c.mkGrantRequest g).client_id = c.client_id
    ∧ (c.mkGrantRequest g).client_secret = c.client_secret
    ∧ (c.mkGrantRequest g).redirect_url = c.redirect_url := by
  cases g <;>
    simp only [Client.mkGrantRequest, Client.exchange_code, Client.exchange_password,
      Client.exchange_client_credentials, Client.exchange_refresh_token,
      Client.request_token, RequestBuilder.param] <;>
    (try split) <;> simp

theorem grantParams_no_credentials (c : Client) (g : Grant) :
    findKey (c.mkGrantRequest g).params "client_id" = none
    ∧ findKey (c.mkGrantRequest g).params "client_secret" = none := by
  cases g <;>
    simp only [Client.mkGrantRequest, Client.exchange_code, Client.exchange_password,
      Client.exchange_client_credentials, Client.exchange_refresh_token,
      Client.request_token, RequestBuilder.param] <;>
    (try split) <;> simp [findKey]

theorem b64EncodeList_length (l : List Nat) :
    (b64EncodeList l).length = b64Len l.length := by
  match l with
  | [] => rfl
  | [_] => rfl
  | [_, _] => rfl
  | _ :: _ :: _ :: rest =>
    simp only [b64EncodeList, List.length_cons, b64Len]
    have ih := b64EncodeList_length rest
    omega

theorem b64Len_bounds : ∀ n : Nat, n < 97 → 32 ≤ n → 43 ≤ b64Len n ∧ b64Len n ≤ 128 := by
  decide

/-- C1: the claim (and `Client::new`'s own documentation, src/lib.rs:587-588,
and the inline comment at src/lib.rs:858-862) says a token request executed
with `token_url = None` returns a recoverable `RequestTokenError::Other`.
The code instead calls `.ok_or_else(..).unwrap()` (src/lib.rs:854-863),
which panics on exactly the `Err` it just constructed: every grant's
request dies with an unwrap panic, never reaching the transport. -/
theorem execute_without_token_url_panics (c : Client) (g : Grant)
    (status : Nat) (body : String) (h : c.token_url = none) :
    (c.mkGrantRequest g).execute status body = Outcome.panicked tokenUrlUnwrapPanic := by
  have ht : (c.mkGrantRequest g).token_url = none := (mkGrantRequest_fields c g).1.trans h
  simp [RequestBuilder.execute, RequestBuilder.buildHttpRequest, ht]

/-- C1 witness: a concrete client without a token endpoint panics on a
client-credentials exchange. -/
theorem execute_without_token_url_panics_witness :
    (Client.new "cid" none { base := "http://authorize", query := [] } none).token_url = none
    ∧ ((Client.new "cid" none { base := "http://authorize", query := [] } none).mkGrantRequest
        Grant.clientCredentials).execute 200 ""
      = Outcome.panicked tokenUrlUnwrapPanic :=
  ⟨rfl, execute_without_token_url_panics _ _ 200 "" rfl⟩

/-- C2: the authorization URL appends query pairs in exactly the order
`response_type`, `client_id`, then `redirect_uri` if configured, then
`scope` (space-joined) if non-empty, then `state` if supplied (this
builder accepts no further extension parameters, so the "extra params"
tail is always empty); and for the configuration
`{client_id="cid", auth_url="http://authorize", redirect_url="http://redirect",
scopes=["read","write"]}` with CSRF state `"xyz"` the serialized
authorization-code URL is exactly the string required by the spec. -/
theorem authorize_url_query_order_and_example :
    (∀ (c : Client) (rt : String) (st : Option String),
      (c.authorize_url_impl rt st).query
        = c.auth_url.query
          ++ [("response_type", rt), ("client_id", c.client_id)]
          ++ (match c.redirect_url with
              | some r => [("redirect_uri", r)]
              | none => [])
          ++ (if (String.intercalate " " c.scopes).isEmpty then []
              else [("scope", String.intercalate " " c.scopes)])
          ++ (match st with
              | some s => [("state", s)]
              | none => []))
    ∧ Url.toString
        (((((Client.new "cid" none { base := "http://authorize", query := [] } none).add_scope
            "read").add_scope "write").set_redirect_url
            "http://redirect").authorize_url_impl "code" (some "xyz"))
      = "http://authorize?response_type=code&client_id=cid&redirect_uri=http%3A%2F%2Fredirect&scope=read+write&state=xyz" :=
  ⟨fun _ _ _ => rfl, by decide⟩

/-- C3 counterexample: the claim "the output never contains the wrapped
value" is false as stated — a wrapper holding the string `"[redacted]"`
(or any substring of the fixed debug rendering) debug-formats to a string
containing that value. -/
theorem secret_debug_contains_value_counterexample :
    strContainsSub (secretDebugFmt SecretTypeName.clientSecret "[redacted]") "[redacted]" = true
    ∧ secretDebugFmt SecretTypeName.clientSecret "[redacted]" = "ClientSecret([redacted])" := by
  decide

/-- C3 amended: for every secret wrapper type the debug rendering is
exactly the fixed string `"<TypeName>([redacted])"`, hence independent of
the wrapped value (two wrappers of one type always render identically),
and the output does not contain the wrapped value except in the
degenerate case that the value is itself a substring of that fixed
redaction string. -/
theorem secret_debug_redaction (t : SecretTypeName) (v w : String) :
    secretDebugFmt t v = t.str ++ "([redacted])"
    ∧ secretDebugFmt t v = secretDebugFmt t w
    ∧ (strContainsSub (t.str ++ "([redacted])") v = false →
        strContainsSub (secretDebugFmt t v) v = false) :=
  ⟨rfl, rfl, fun h => h⟩

/-- C3 witness: concrete secrets of one type render to the same fixed
string, which does not contain either secret. -/
theorem secret_debug_redaction_witness :
    secretDebugFmt SecretTypeName.accessToken "hunter2"
      = SecretTypeName.str SecretTypeName.accessToken ++ "([redacted])"
    ∧ secretDebugFmt SecretTypeName.accessToken "hunter2"
      = secretDebugFmt SecretTypeName.accessToken "s3cr3t"
    ∧ strContainsSub (secretDebugFmt SecretTypeName.accessToken "hunter2") "hunter2" = false := by
  have h := secret_debug_redaction SecretTypeName.accessToken "hunter2" "s3cr3t"
  exact ⟨h.1, h.2.1, h.2.2 (by decide)⟩

/-- C4: under `BasicAuth` the HTTP Basic username is the form-urlencoded
client id and the password the form-urlencoded client secret (when
configured), and the form body of any grant request carries no
`client_id`/`client_secret` fields; under `RequestBody` the credentials
are body fields and no `Authorization` header is set.  The two modes are
mutually exclusive by the two implications. -/
theorem auth_modes_mutually_exclusive (c : Client) (g : Grant) :
    (c.auth_type = AuthType.BasicAuth →
      (c.mkGrantRequest g).authHeader
          = some (url_encode c.client_id, c.client_secret.map url_encode)
        ∧ findKey (c.mkGrantRequest g).bodyPairs "client_id" = none
        ∧ findKey (c.mkGrantRequest g).bodyPairs "client_secret" = none)
    ∧ (c.auth_type = AuthType.RequestBody →
      (c.mkGrantRequest g).authHeader = none
        ∧ findKey (c.mkGrantRequest g).bodyPairs "client_id" = some c.client_id
        ∧ findKey (c.mkGrantRequest g).bodyPairs "client_secret" = c.client_secret) := by
  have hf := mkGrantRequest_fields c g
  have hp := grantParams_no_credentials c g
  constructor
  · intro h
    have hat : (c.mkGrantRequest g).auth_type = AuthType.BasicAuth := hf.2.1.trans h
    refine ⟨?_, ?_, ?_⟩
    · simp [RequestBuilder.authHeader, RequestBuilder.authStep, hat,
        hf.2.2.1, hf.2.2.2.1]
    · simp only [RequestBuilder.bodyPairs, RequestBuilder.authStep, hat,
        findKey_append, hp.1]
      cases (c.mkGrantRequest g).redirect_url <;> simp [findKey]
    · simp only [RequestBuilder.bodyPairs, RequestBuilder.authStep, hat,
        findKey_append, hp.2]
      cases (c.mkGrantRequest g).redirect_url <;> simp [findKey]
  · intro h
    have hat : (c.mkGrantRequest g).auth_type = AuthType.RequestBody := hf.2.1.trans h
    refine ⟨?_, ?_, ?_⟩
    · simp [RequestBuilder.authHeader, RequestBuilder.authStep, hat]
    · simp only [RequestBuilder.bodyPairs, RequestBuilder.authStep, hat,
        findKey_append, hf.2.2.1]
      cases (c.mkGrantRequest g).client_secret <;> simp [findKey]
    · rw [← hf.2.2.2.1]
      simp only [RequestBuilder.bodyPairs, RequestBuilder.authStep, hat,
        findKey_append, hp.2]
      cases hcs : (c.mkGrantRequest g).client_secret <;>
        cases (c.mkGrantRequest g).redirect_url <;> simp [findKey]
  
/-- C4 witness: a concrete client in each mode. -/
theorem auth_modes_mutually_exclusive_witness :
    (((Client.new "cid" (some "sec") { base := "http://a", query := [] }
          (some "http://token")).mkGrantRequest (Grant.code "c0")).authHeader
        = some (url_encode "cid", some (url_encode "sec"))
      ∧ findKey (((Client.new "cid" (some "sec") { base := "http://a", query := [] }
          (some "http://token")).mkGrantRequest (Grant.code "c0")).bodyPairs) "client_id" = none
      ∧ findKey (((Client.new "cid" (some "sec") { base := "http://a", query := [] }
          (some "http://token")).mkGrantRequest (Grant.code "c0")).bodyPairs) "client_secret" = none)
    ∧ ((((Client.new "cid" (some "sec") { base := "http://a", query := [] }
          (some "http://token")).set_auth_type AuthType.RequestBody).mkGrantRequest
            (Grant.code "c0")).authHeader = none
      ∧ findKey ((((Client.new "cid" (some "sec") { base := "http://a", query := [] }
          (some "http://token")).set_auth_type AuthType.RequestBody).mkGrantRequest
            (Grant.code "c0")).bodyPairs) "client_id" = some "cid"
      ∧ findKey ((((Client.new "cid" (some "sec") { base := "http://a", query := [] }
          (some "http://token")).set_auth_type AuthType.RequestBody).mkGrantRequest
            (Grant.code "c0")).bodyPairs) "client_secret"
        = (Client.new "cid" (some "sec") { base := "http://a", query := [] }
            (some "http://token")).client_secret) :=
  ⟨(auth_modes_mutually_exclusive
      (Client.new "cid" (some "sec") { base := "http://a", query := [] }
        (some "http://token")) (Grant.code "c0")).1 rfl,
    (auth_modes_mutually_exclusive
      ((Client.new "cid" (some "sec") { base := "http://a", query := [] }
        (some "http://token")).set_auth_type AuthType.RequestBody) (Grant.code "c0")).2 rfl⟩

/-- C5 counterexample: the claim says an error string outside the six
enumerated codes "yields the Other(code) catch-all variant holding that
string"; on the code it does not.  `ErrorField` is deserialized by the
plain serde derive, whose externally-tagged enum representation resolves
a bare JSON string to *unit* variants only, so `{"error":"surprise_code"}`
fails to deserialize and `execute` reports a `Parse` error carrying the
raw body — not `ServerResponse(Other("surprise_code"))`. -/
theorem error_code_unknown_is_parse_error_counterexample :
    ((Client.new "cid" none { base := "http://a", query := [] }
        (some "http://token")).exchange_client_credentials).execute
        400 "\x7b\"error\":\"surprise_code\"\x7d"
      = Outcome.err (RequestTokenError.Parse "unknown variant `surprise_code`"
          "\x7b\"error\":\"surprise_code\"\x7d")
    ∧ ((Client.new "cid" none { base := "http://a", query := [] }
        (some "http://token")).exchange_client_credentials).execute
        400 "\x7b\"error\":\"surprise_code\"\x7d"
      ≠ Outcome.err (RequestTokenError.ServerResponse
          { error := ErrorField.Other "surprise_code",
            error_description := none, error_uri := none }) := by
  decide

/-- C5 amended: on a non-2xx response, the wire `error` string is matched
case-sensitively against the snake_case tokens: `{"error":"invalid_grant"}`
yields a `ServerResponse` whose error field is `InvalidGrant`, and case
variants such as `"INVALID_GRANT"` are unknown variants.  But a string
outside the six enumerated codes does *not* reach the `Other` catch-all;
the error body fails to deserialize and the response is reported as a
`Parse` error carrying the raw body (the `Other` variant is reachable
only via serde's `{"other": code}` map form, which never occurs on the
wire). -/
theorem error_field_wire_matching (b : RequestBuilder) (status : Nat)
    (hb : b.token_url.isSome = true) (hs : statusIsSuccess status = false) :
    b.execute status "\x7b\"error\":\"invalid_grant\"\x7d"
      = Outcome.err (RequestTokenError.ServerResponse
          { error := ErrorField.InvalidGrant, error_description := none, error_uri := none })
    ∧ (∀ s : String, s ∉ rfcErrorCodes → s ≠ "other" →
        ErrorField.fromJson (Json.str s) = Except.error ("unknown variant `" ++ s ++ "`"))
    ∧ ErrorField.fromJson (Json.str "INVALID_GRANT")
      = Except.error "unknown variant `INVALID_GRANT`"
    ∧ (∀ body m, parseErrorResponse body = Except.error m → body ≠ "" →
        b.execute status body = Outcome.err (RequestTokenError.Parse m body)) := by
  obtain ⟨u, hu⟩ := Option.isSome_iff_exists.mp hb
  refine ⟨?_, ?_, by decide, ?_⟩
  · have hparse : parseErrorResponse "\x7b\"error\":\"invalid_grant\"\x7d"
        = Except.ok
            { error := ErrorField.InvalidGrant
              error_description := none
              error_uri := none } := by decide
    have hne : ("\x7b\"error\":\"invalid_grant\"\x7d" : String) ≠ "" := by decide
    simp [RequestBuilder.execute, RequestBuilder.buildHttpRequest, hu,
      classifyResponse, hs, hne, hparse]
  · intro s h1 h2
    simp only [rfcErrorCodes, List.mem_cons, List.not_mem_nil, or_false, not_or] at h1
    obtain ⟨n1, n2, n3, n4, n5, n6⟩ := h1
    simp [ErrorField.fromJson, n1, n2, n3, n4, n5, n6, h2]
  · intro body m hp hne
    simp [RequestBuilder.execute, RequestBuilder.buildHttpRequest, hu,
      classifyResponse, hs, hne, hp]

/-- C5 witness: the amended behaviour at a concrete builder, a concrete
unknown code, and a concrete unparseable body. -/
theorem error_field_wire_matching_witness :
    ((Client.new "cid" none { base := "http://a", query := [] }
        (some "http://token")).exchange_code "c0").execute
        400 "\x7b\"error\":\"invalid_grant\"\x7d"
      = Outcome.err (RequestTokenError.ServerResponse
          { error := ErrorField.InvalidGrant, error_description := none, error_uri := none })
    ∧ ErrorField.fromJson (Json.str "bogus") = Except.error ("unknown variant `" ++ "bogus" ++ "`")
    ∧ ((Client.new "cid" none { base := "http://a", query := [] }
        (some "http://token")).exchange_code "c0").execute 400 "junk"
      = Outcome.err (RequestTokenError.Parse "expected value" "junk") := by
  have h := error_field_wire_matching
    ((Client.new "cid" none { base := "http://a", query := [] }
      (some "http://token")).exchange_code "c0") 400 (by decide) (by decide)
  exact ⟨h.1, h.2.1 "bogus" (by decide) (by decide),
    h.2.2.2 "junk" "expected value" (by decide) (by decide)⟩

/-- C6: exhaustive response classification of `execute`: non-2xx with an
empty body is the generic "empty error response" `Other` (not a `Parse`
error); non-2xx with a non-empty body that fails to deserialize as an
`ErrorResponse` is a `Parse` error carrying the raw body; 2xx with an
empty body is the generic "empty response body" `Other`; 2xx with a
non-empty body that fails to deserialize as a token response is a `Parse`
error carrying the raw body. -/
theorem response_classification (b : RequestBuilder) (status : Nat) (body m : String)
    (hb : b.token_url.isSome = true) :
    (statusIsSuccess status = false → body = "" →
      b.execute status body
        = Outcome.err (RequestTokenError.Other "Server returned empty error response"))
    ∧ (statusIsSuccess status = false → body ≠ "" →
        parseErrorResponse body = Except.error m →
      b.execute status body = Outcome.err (RequestTokenError.Parse m body))
    ∧ (statusIsSuccess status = true → body = "" →
      b.execute status body
        = Outcome.err (RequestTokenError.Other "Server returned empty response body"))
    ∧ (statusIsSuccess status = true → body ≠ "" →
        parseTokenResponse body = Except.error m →
      b.execute status body = Outcome.err (RequestTokenError.Parse m body)) := by
  obtain ⟨u, hu⟩ := Option.isSome_iff_exists.mp hb
  refine ⟨?_, ?_, ?_, ?_⟩
  · intro hs he
    simp [RequestBuilder.execute, RequestBuilder.buildHttpRequest, hu,
      classifyResponse, hs, he]
  · intro hs hne hp
    simp [RequestBuilder.execute, RequestBuilder.buildHttpRequest, hu,
      classifyResponse, hs, hne, hp]
  · intro hs he
    simp [RequestBuilder.execute, RequestBuilder.buildHttpRequest, hu,
      classifyResponse, hs, he]
  · intro hs hne hp
    simp [RequestBuilder.execute, RequestBuilder.buildHttpRequest, hu,
      classifyResponse, hs, hne, hp]

/-- C6 witness: each of the four classification branches at concrete
inputs. -/
theorem response_classification_witness :
    ((Client.new "cid" none { base := "http://a", query := [] }
        (some "http://token")).exchange_code "c0").execute 404 ""
      = Outcome.err (RequestTokenError.Other "Server returned empty error response")
    ∧ ((Client.new "cid" none { base := "http://a", query := [] }
        (some "http://token")).exchange_code "c0").execute 404 "junk"
      = Outcome.err (RequestTokenError.Parse "expected value" "junk")
    ∧ ((Client.new "cid" none { base := "http://a", query := [] }
        (some "http://token")).exchange_code "c0").execute 200 ""
      = Outcome.err (RequestTokenError.Other "Server returned empty response body")
    ∧ ((Client.new "cid" none { base := "http://a", query := [] }
        (some "http://token")).exchange_code "c0").execute 200 "junk"
      = Outcome.err (RequestTokenError.Parse "expected value" "junk") := by
  have h404 := response_classification
    ((Client.new "cid" none { base := "http://a", query := [] }
      (some "http://token")).exchange_code "c0") 404 "junk" "expected value" (by decide)
  have h404e := response_classification
    ((Client.new "cid" none { base := "http://a", query := [] }
      (some "http://token")).exchange_code "c0") 404 "" "expected value" (by decide)
  have h200 := response_classification
    ((Client.new "cid" none { base := "http://a", query := [] }
      (some "http://token")).exchange_code "c0") 200 "junk" "expected value" (by decide)
  have h200e := response_classification
    ((Client.new "cid" none { base := "http://a", query := [] }
      (some "http://token")).exchange_code "c0") 200 "" "expected value" (by decide)
  exact ⟨h404e.1 (by decide) rfl,
    h404.2.1 (by decide) (by decide) (by decide),
    h200e.2.2.1 (by decide) rfl,
    h200.2.2.2 (by decide) (by decide) (by decide)⟩

/-- C7: parsing a 2xx token body requires `access_token` and `token_type`
(absence of either can never yield a parsed response); `token_type` is
matched case-insensitively by lowercasing before matching against
{Bearer, Mac}; `{"access_token":"abc","token_type":"bearer"}` parses to
`access_token="abc"`, `token_type=Bearer`, `expires_in=None`,
`scopes=None`; a present `"scope":"read write"` parses to the ordered
list `["read","write"]` while an absent `scope` field parses to `none`
(distinct from `some []`). -/
theorem token_response_parsing :
    parseTokenResponse "\x7b\"access_token\":\"abc\",\"token_type\":\"bearer\"\x7d"
      = Except.ok
          { access_token := "abc"
            token_type := TokenType.Bearer
            expires_in := none
            refresh_token := none
            scopes := none }
    ∧ parseTokenResponse
        "\x7b\"access_token\":\"abc\",\"token_type\":\"Bearer\",\"scope\":\"read write\"\x7d"
      = Except.ok
          { access_token := "abc"
            token_type := TokenType.Bearer
            expires_in := none
            refresh_token := none
            scopes := some ["read", "write"] }
    ∧ (∀ fields r, jLookup fields "access_token" = none →
        StandardTokenResponse.fromJson (Json.obj fields) ≠ Except.ok r)
    ∧ (∀ fields r, jLookup fields "token_type" = none →
        StandardTokenResponse.fromJson (Json.obj fields) ≠ Except.ok r)
    ∧ (∀ s, deserializeTokenTypeCaseInsensitive (Json.str s)
        = TokenType.fromJson (Json.str (strToLower s))) := by
  refine ⟨by decide, by decide, ?_, ?_, fun s => rfl⟩
  · intro fields r h
    simp [StandardTokenResponse.fromJson, h]
  · intro fields r h
    cases hA : jLookup fields "access_token" with
    | none => simp [StandardTokenResponse.fromJson, hA]
    | some aj => cases aj <;> simp [StandardTokenResponse.fromJson, hA, h]

/-- C7 witness: concrete bodies, and concrete objects missing each of the
two required fields. -/
theorem token_response_parsing_witness :
    parseTokenResponse "\x7b\"access_token\":\"abc\",\"token_type\":\"bearer\"\x7d"
      = Except.ok
          { access_token := "abc"
            token_type := TokenType.Bearer
            expires_in := none
            refresh_token := none
            scopes := none }
    ∧ StandardTokenResponse.fromJson (Json.obj [])
      ≠ Except.ok
          { access_token := ""
            token_type := TokenType.Bearer
            expires_in := none
            refresh_token := none
            scopes := none }
    ∧ StandardTokenResponse.fromJson (Json.obj [("access_token", Json.str "abc")])
      ≠ Except.ok
          { access_token := "abc"
            token_type := TokenType.Bearer
            expires_in := none
            refresh_token := none
            scopes := none } := by
  have h := token_response_parsing
  exact ⟨h.1, h.2.2.1 [] _ rfl, h.2.2.2.1 [("access_token", Json.str "abc")] _ rfl⟩

/-- C8: with a non-empty scope list, the password grant sends the
space-joined scopes under the body key `"scope"` while the
client-credentials grant sends them under `"scopes"` (and neither sends
the other key); with an empty scope list neither grant adds a scope
parameter at all. -/
theorem scope_parameter_keys (c : Client) (u p : String) :
    (c.scopes ≠ [] →
      findKey (c.exchange_password u p).params "scope"
          = some (String.intercalate " " c.scopes)
        ∧ findKey (c.exchange_password u p).params "scopes" = none
        ∧ findKey c.exchange_client_credentials.params "scopes"
          = some (String.intercalate " " c.scopes)
        ∧ findKey c.exchange_client_credentials.params "scope" = none)
    ∧ (c.scopes = [] →
      findKey (c.exchange_password u p).params "scope" = none
        ∧ findKey (c.exchange_password u p).params "scopes" = none
        ∧ findKey c.exchange_client_credentials.params "scope" = none
        ∧ findKey c.exchange_client_credentials.params "scopes" = none) := by
  cases hc : c.scopes with
  | nil =>
    refine ⟨fun h => absurd rfl h, fun _ => ?_⟩
    simp [Client.exchange_password, Client.exchange_client_credentials,
      Client.request_token, RequestBuilder.param, hc, findKey]
  | cons a l =>
    refine ⟨fun _ => ?_, fun h => absurd h (List.cons_ne_nil a l)⟩
    simp [Client.exchange_password, Client.exchange_client_credentials,
      Client.request_token, RequestBuilder.param, hc, findKey]

/-- C8 witness: a concrete client with scopes `["read","write"]` and one
with no scopes. -/
theorem scope_parameter_keys_witness :
    findKey ((((Client.new "cid" none { base := "http://a", query := [] }
        (some "http://t")).add_scope "read").add_scope "write").exchange_password
          "u" "p").params "scope"
      = some (String.intercalate " "
          ((((Client.new "cid" none { base := "http://a", query := [] }
            (some "http://t")).add_scope "read").add_scope "write").scopes))
    ∧ findKey ((((Client.new "cid" none { base := "http://a", query := [] }
        (some "http://t")).add_scope "read").add_scope "write").exchange_client_credentials).params
        "scopes"
      = some (String.intercalate " "
          ((((Client.new "cid" none { base := "http://a", query := [] }
            (some "http://t")).add_scope "read").add_scope "write").scopes))
    ∧ findKey ((Client.new "cid" none { base := "http://a", query := [] }
        (some "http://t")).exchange_password "u" "p").params "scope" = none
    ∧ findKey ((Client.new "cid" none { base := "http://a", query := [] }
        (some "http://t")).exchange_client_credentials).params "scopes" = none := by
  have h1 := scope_parameter_keys
    ((((Client.new "cid" none { base := "http://a", query := [] }
      (some "http://t")).add_scope "read").add_scope "write")) "u" "p"
  have h2 := scope_parameter_keys
    (Client.new "cid" none { base := "http://a", query := [] } (some "http://t")) "u" "p"
  exact ⟨(h1.1 (by decide)).1, (h1.1 (by decide)).2.2.1,
    (h2.2 rfl).1, (h2.2 rfl).2.2.2⟩

/-- C9: `new_random_len` with a byte count outside [32, 96] is an
assertion failure (a panic, not a recoverable error); for every byte
count inside [32, 96] generation succeeds, and the unpadded URL-safe
base64 verifier has length in [43, 128] characters, so the internal
length assertion can never fire. -/
theorem pkce_verifier_length_contract (random_bytes : List Nat) :
    (¬ (32 ≤ random_bytes.length ∧ random_bytes.length ≤ 96) →
      PkceCodeVerifierS256.new_random_len random_bytes
        = Outcome.panicked "assertion failed: num_bytes >= 32 && num_bytes <= 96")
    ∧ (32 ≤ random_bytes.length → random_bytes.length ≤ 96 →
      PkceCodeVerifierS256.new_random_len random_bytes
          = Outcome.ok (base64UrlNoPad random_bytes)
        ∧ 43 ≤ (base64UrlNoPad random_bytes).length
        ∧ (base64UrlNoPad random_bytes).length ≤ 128) := by
  constructor
  · intro h
    simp [PkceCodeVerifierS256.new_random_len, h]
  · intro h1 h2
    have hlen : (base64UrlNoPad random_bytes).length = b64Len random_bytes.length := by
      simp [base64UrlNoPad, String.length, b64EncodeList_length]
    have hb := b64Len_bounds random_bytes.length (by omega) h1
    have hc : 43 ≤ (base64UrlNoPad random_bytes).length
        ∧ (base64UrlNoPad random_bytes).length ≤ 128 := by
      rw [hlen]
      exact hb
    refine ⟨?_, hc.1, hc.2⟩
    simp only [PkceCodeVerifierS256.new_random_len]
    rw [if_pos (And.intro h1 h2), if_pos hc]

/-- C9 witness: 32 zero bytes succeed with a 43-character verifier; an
empty byte list trips the assertion. -/
theorem pkce_verifier_length_contract_witness :
    (PkceCodeVerifierS256.new_random_len (List.replicate 32 0)
        = Outcome.ok (base64UrlNoPad (List.replicate 32 0))
      ∧ 43 ≤ (base64UrlNoPad (List.replicate 32 0)).length
      ∧ (base64UrlNoPad (List.replicate 32 0)).length ≤ 128)
    ∧ PkceCodeVerifierS256.new_random_len []
      = Outcome.panicked "assertion failed: num_bytes >= 32 && num_bytes <= 96" :=
  ⟨(pkce_verifier_length_contract (List.replicate 32 0)).2 (by decide) (by decide),
    (pkce_verifier_length_contract []).1 (by decide)⟩

/-- C10: `authorize_url` (resp. `authorize_url_implicit`) invokes the
supplied state generator exactly once — the returned token is the
generator's output at the given seed and the returned generator state is
the seed advanced by exactly one step — and the returned pair is
self-consistent: the URL's `state` query parameter equals the returned
token, and `response_type` is `"code"` (resp. `"token"`).  The
hypotheses only rule out auth-endpoint URLs that already carry a `state`
or `response_type` query parameter of their own. -/
theorem authorize_url_state_consistency {σ : Type} (c : Client)
    (g : σ → String × σ) (s : σ)
    (hs : findKey c.auth_url.query "state" = none)
    (hr : findKey c.auth_url.query "response_type" = none) :
    (c.authorize_url g s).1.2 = (g s).1
    ∧ (c.authorize_url g s).2 = (g s).2
    ∧ findKey (c.authorize_url g s).1.1.query "state" = some (g s).1
    ∧ findKey (c.authorize_url g s).1.1.query "response_type" = some "code"
    ∧ (c.authorize_url_implicit g s).1.2 = (g s).1
    ∧ (c.authorize_url_implicit g s).2 = (g s).2
    ∧ findKey (c.authorize_url_implicit g s).1.1.query "state" = some (g s).1
    ∧ findKey (c.authorize_url_implicit g s).1.1.query "response_type" = some "token" := by
  refine ⟨rfl, rfl, ?_, ?_, rfl, rfl, ?_, ?_⟩ <;>
  · simp only [Client.authorize_url, Client.authorize_url_implicit,
      Client.authorize_url_impl, findKey_append, hs, hr]
    cases c.redirect_url <;>
      cases (String.intercalate " " c.scopes).isEmpty <;>
      simp [findKey]

/-- C10 witness: with a counting generator the counter advances from 0 to
exactly 1, and the produced URLs carry the generated state. -/
theorem authorize_url_state_consistency_witness :
    ((Client.new "cid" none { base := "http://authorize", query := [] } none).authorize_url
        (fun n : Nat => ("tok", n + 1)) 0).2 = 1
    ∧ ((Client.new "cid" none { base := "http://authorize", query := [] } none).authorize_url
        (fun n : Nat => ("tok", n + 1)) 0).1.2 = "tok"
    ∧ findKey ((Client.new "cid" none { base := "http://authorize", query := [] } none).authorize_url
        (fun n : Nat => ("tok", n + 1)) 0).1.1.query "state" = some "tok"
    ∧ findKey ((Client.new "cid" none { base := "http://authorize", query := [] } none).authorize_url
        (fun n : Nat => ("tok", n + 1)) 0).1.1.query "response_type" = some "code"
    ∧ findKey ((Client.new "cid" none
        { base := "http://authorize", query := [] } none).authorize_url_implicit
        (fun n : Nat => ("tok", n + 1)) 0).1.1.query "response_type" = some "token" := by
  have h := authorize_url_state_consistency
    (Client.new "cid" none { base := "http://authorize", query := [] } none)
    (fun n : Nat => ("tok", n + 1)) 0 rfl rfl
  exact ⟨h.2.1, h.1, h.2.2.1, h.2.2.2.1, h.2.2.2.2.2.2.2⟩
